import Mathlib

/-!
Shallow embedding of the auditAI repository (src/app.py, src/auditor/__init__.py,
src/auditor/analyzer.py, src/auditor/models.py) and verification of the frozen
claims about it.

Conventions of the embedding:
* Python strings are Lean `String`s; character-level work happens on `List Char`.
* `str.lower()` is modelled as ASCII lowering (the repository only feeds ASCII
  metric names and keywords to it).
* Python exceptions are modelled with `Except String`; a `try/except` block is a
  `match` on the `Except` value.
* Python dicts with heterogeneous values are association lists over `PyVal`.
* Python floats are modelled as rationals; `round(x, 4)` is modelled with the
  mathematical round.  No claim depends on float rounding behaviour.
-/

/-- Python whitespace test restricted to the ASCII whitespace characters
(`str.strip` / `str.split` semantics). -/
def pySpace (c : Char) : Bool :=
  c == ' ' || c == '\t' || c == '\n' || c == '\r' || c == '\x0b' || c == '\x0c'

/-- ASCII lowering of one character, as `str.lower` does on ASCII text. -/
def lowerChar (c : Char) : Char :=
  if 65 ≤ c.toNat ∧ c.toNat ≤ 90 then Char.ofNat (c.toNat + 32) else c

/-- `str.lower` on a character list (ASCII). -/
def lowerL (l : List Char) : List Char := l.map lowerChar

/-- `str.lower` on a string (ASCII). -/
def pyLower (s : String) : String := String.mk (lowerL s.data)

/-- `str.strip()`: drop ASCII whitespace from both ends. -/
def stripL (l : List Char) : List Char :=
  ((l.dropWhile pySpace).reverse.dropWhile pySpace).reverse

/-- Boolean prefix test on character lists. -/
def lpre : List Char → List Char → Bool
  | [], _ => true
  | _ :: _, [] => false
  | a :: as, b :: bs => a == b && lpre as bs

/-- Python `needle in hay` substring test. -/
def containsSub (needle : List Char) : List Char → Bool
  | [] => needle.isEmpty
  | c :: cs => lpre needle (c :: cs) || containsSub needle cs

/-- Substring test at the string level. -/
def containsSubS (needle hay : String) : Bool := containsSub needle.data hay.data

/-- Python `hay.count(needle)`: number of non-overlapping occurrences, scanning
left to right and skipping past each match. -/
def pyCount (needle : List Char) : List Char → Nat
  | [] => 0
  | c :: cs =>
    if lpre needle (c :: cs) then 1 + pyCount needle (cs.drop (needle.length - 1))
    else pyCount needle cs
termination_by l => l.length
decreasing_by
  · simp only [List.length_cons, List.length_drop]
    omega
  · simp only [List.length_cons]
    omega

/-- Python `s.split('\n')`: split at every newline, keeping empty segments; the
result always has one more segment than the number of newlines. -/
def splitNl : List Char → List (List Char)
  | [] => [[]]
  | c :: cs =>
    match splitNl cs with
    | [] => [[]]
    | r :: rs => if c = '\n' then [] :: r :: rs else (c :: r) :: rs

/-- `s.split('\n')` at the string level. -/
def pySplitNl (s : String) : List (List Char) := splitNl s.data

/-- Python `s.split()` (no argument): split on runs of whitespace, dropping
empty segments.  The accumulator holds the current word reversed. -/
def wsSplitAux : List Char → List Char → List (List Char)
  | [], acc => if acc.isEmpty then [] else [acc.reverse]
  | c :: cs, acc =>
    if pySpace c then
      if acc.isEmpty then wsSplitAux cs [] else acc.reverse :: wsSplitAux cs []
    else wsSplitAux cs (c :: acc)

/-- `s.split()` at the string level. -/
def pySplitWs (s : String) : List (List Char) := wsSplitAux s.data []

/-- A Python value appearing in the dicts this program builds. -/
inductive PyVal where
  | pInt (n : Int)
  | pStr (s : String)
  | pRat (q : Rat)
  | pStrList (l : List String)
  | pDict (d : List (String × PyVal))
deriving Repr

/-- A Python dict with string keys, in insertion order. -/
abbrev PyDict := List (String × PyVal)

/-!  ## src/auditor/models.py  -/

/-- The `AuditResult` dataclass of `src/auditor/models.py`. -/
structure AuditResult where
  efficiency_score : Int
  complexity_score : Int
  bug_count : Nat
  optimization_suggestions : List String
  cost_analysis : PyDict
  red_flags : List String
  summary : String
deriving Repr

/-- `PlatformPatterns.REPLIT_PATTERNS`. -/
def REPLIT_PATTERNS : List String :=
  ["unnecessary package installations",
   "overly complex file structure",
   "missing error handling for replit environment"]

/-- `PlatformPatterns.LOVABLE_PATTERNS`. -/
def LOVABLE_PATTERNS : List String :=
  ["redundant react components",
   "inline styles instead of css",
   "missing prop validation"]

/-- `PlatformPatterns.CURSOR_PATTERNS`. -/
def CURSOR_PATTERNS : List String :=
  ["excessive commenting",
   "over-engineered solutions",
   "unnecessary abstractions"]

/-- `PlatformPatterns.get_patterns`: `platform_map.get(platform.lower(), [])`,
the dict lookup written out as the if-chain over its three keys. -/
def get_patterns (platform : String) : List String :=
  let k := pyLower platform
  if k = "replit" then REPLIT_PATTERNS
  else if k = "lovable" then LOVABLE_PATTERNS
  else if k = "cursor" then CURSOR_PATTERNS
  else []

/-!  ## src/auditor/__init__.py — the keyword-heuristic CodeAuditor  -/

/-- Convert a run of decimal digit characters to the number they denote
(`int(match.group(1))`). -/
def digitsToNat (l : List Char) : Nat :=
  l.foldl (fun a c => a * 10 + (c.toNat - 48)) 0

/-- Scan forward from a position for the first decimal-digit run without
crossing a newline (`.` in a Python regex does not match `\n`); return the run
parsed as a number.  This is the `.*?(\d+)` part of the search pattern. -/
def digitsAfter : List Char → Option Nat
  | [] => none
  | c :: cs =>
    if c = '\n' then none
    else if c.isDigit then some (digitsToNat ((c :: cs).takeWhile Char.isDigit))
    else digitsAfter cs

/-- `re.search(rf"score_type.*?(\d+)", text)`: leftmost occurrence of the
metric name that has a digit later on the same line wins, and the lazy `.*?`
picks the first digit run after it (`\d+` then takes the maximal run). -/
def reSearchNum (metric : List Char) : List Char → Option Nat
  | [] => none
  | c :: cs =>
    match if lpre metric (c :: cs) then digitsAfter ((c :: cs).drop metric.length) else none with
    | some n => some n
    | none => reSearchNum metric cs

/-- `CodeAuditor._extract_score` (src/auditor/__init__.py): search the lowered
text for the metric name followed by an integer; clamp with
`min(100, max(1, n))`; otherwise return the default. -/
def extract_score (text : String) (score_type : String) (default : Nat) : Nat :=
  match reSearchNum score_type.data (lowerL text.data) with
  | some n => min 100 (max 1 n)
  | none => default

/-- The fixed keyword set of `CodeAuditor._count_bugs`. -/
def bug_keywords : List String := ["bug", "issue", "problem", "error", "vulnerability"]

/-- `CodeAuditor._count_bugs`: sum the `text.lower().count(keyword)` values and
cap the total at 10. -/
def count_bugs (text : String) : Nat :=
  min (bug_keywords.foldl (fun acc kw => acc + pyCount kw.data (lowerL text.data)) 0) 10

/-- The keyword set of `CodeAuditor._extract_suggestions`. -/
def suggestion_keywords : List String :=
  ["suggest", "recommend", "improve", "optimize", "consider"]

/-- The default suggestions substituted when no line matches. -/
def default_suggestions : List String :=
  ["Consider adding error handling",
   "Review variable naming conventions",
   "Add documentation and comments"]

/-- The for-loop of `_extract_suggestions`: strip each line, keep it when it
contains a suggestion keyword (case-insensitively) and its stripped length
exceeds 10. -/
def collectSuggestions : List (List Char) → List String
  | [] => []
  | l :: ls =>
    let t := stripL l
    if (suggestion_keywords.any fun w => containsSub w.data (lowerL t)) ∧ t.length > 10 then
      String.mk t :: collectSuggestions ls
    else collectSuggestions ls

/-- `CodeAuditor._extract_suggestions`: collect matching lines, fall back to the
three defaults when none match, and return at most the first five. -/
def extract_suggestions (text : String) : List String :=
  let suggestions := collectSuggestions (pySplitNl text)
  (if suggestions.isEmpty then default_suggestions else suggestions).take 5

/-- The keyword set of `CodeAuditor._extract_red_flags`. -/
def flag_keywords : List String :=
  ["security", "vulnerable", "risk", "dangerous", "warning", "critical"]

/-- The for-loop of `_extract_red_flags`: keyword test on the lowered raw line,
length test on the stripped line, and the stripped line is kept. -/
def collectRedFlags : List (List Char) → List String
  | [] => []
  | l :: ls =>
    if (flag_keywords.any fun w => containsSub w.data (lowerL l)) ∧ (stripL l).length > 10 then
      String.mk (stripL l) :: collectRedFlags ls
    else collectRedFlags ls

/-- `CodeAuditor._extract_red_flags`: collect matching lines and return at most
the first three. -/
def extract_red_flags (text : String) : List String :=
  (collectRedFlags (pySplitNl text)).take 3

/-- The scan of `_extract_summary` for a line containing "summary": join the
stripped non-blank parts of the next three lines with spaces; if that join is
non-empty return it, otherwise keep scanning. -/
def summaryScan : List (List Char) → Option String
  | [] => none
  | l :: rest =>
    if containsSub "summary".data (lowerL l) then
      let pieces := (rest.take 3).filterMap fun x =>
        let t := stripL x
        if t.isEmpty then none else some (String.mk t)
      let s := String.intercalate " " pieces
      if s.isEmpty then summaryScan rest else some s
    else summaryScan rest

/-- `CodeAuditor._extract_summary`: look for a summary section; otherwise the
first line whose stripped length exceeds 50; otherwise a fixed sentence. -/
def extract_summary (text : String) : String :=
  match summaryScan (pySplitNl text) with
  | some s => s
  | none =>
    match (pySplitNl text).find? (fun l => (stripL l).length > 50) with
    | some l => String.mk (stripL l)
    | none => "Code analysis completed. Review detailed metrics for insights."

/-- `CodeAuditor._parse_analysis`: build the `AuditResult` from the heuristic
extractors plus the simple cost dict. -/
def parse_analysis (analysis : String) (code : String) : AuditResult :=
  let efficiency_score := extract_score analysis "efficiency" 75
  let complexity_score := extract_score analysis "complexity" 5
  { efficiency_score := efficiency_score
    complexity_score := complexity_score
    bug_count := count_bugs analysis
    optimization_suggestions := extract_suggestions analysis
    cost_analysis :=
      [("lines_of_code", .pInt (pySplitNl code).length),
       ("estimated_runtime", .pStr (if code.data.length > 1000 then "medium" else "low")),
       ("maintainability", .pStr (if efficiency_score > 70 then "good" else "needs_improvement"))]
    red_flags := extract_red_flags analysis
    summary := extract_summary analysis }

/-- The number of non-blank lines of `_fallback_analysis`:
`[line for line in code.split('\n') if line.strip()]`. -/
def nonBlankLineCount (code : String) : Nat :=
  ((pySplitNl code).filter (fun l => ¬ (stripL l).isEmpty)).length

/-- `CodeAuditor._fallback_analysis`: the fixed result produced when the API
call fails. -/
def fallback_analysis (code : String) (error_msg : String) : AuditResult :=
  { efficiency_score := 70
    complexity_score := 5
    bug_count := 0
    optimization_suggestions :=
      ["API analysis unavailable - manual review recommended",
       "Consider code formatting and structure improvements"]
    cost_analysis :=
      [("lines_of_code", .pInt (nonBlankLineCount code)),
       ("estimated_runtime", .pStr "unknown"),
       ("maintainability", .pStr "requires_analysis"),
       ("api_error", .pStr error_msg)]
    red_flags := ["API analysis unavailable"]
    summary := "Basic analysis: " ++ toString (nonBlankLineCount code) ++
      " lines of code. Full analysis unavailable due to API issues." }

/-- `CodeAuditor._create_audit_prompt`: the formatted prompt string. -/
def create_audit_prompt (code : String) (platform_patterns : List String)
    (language : String) : String :=
  let platform_context :=
    if platform_patterns.isEmpty then ""
    else "\nAlso check for these platform-specific issues: " ++
      String.intercalate ", " platform_patterns
  "\nPlease audit this " ++ language ++ " code and provide a detailed analysis:\n\nCODE:\n" ++
  code ++
  "\n\nPlease analyze for:\n1. Code efficiency (score 1-100)\n2. Complexity score (1-10, where 10 is most complex)\n3. Potential bugs or issues\n4. Optimization suggestions\n5. Cost analysis (performance, maintainability)\n6. Security red flags\n7. Overall summary\n\n" ++
  platform_context ++
  "\n\nFormat your response as structured analysis covering all these points.\n"

/-- The try-block body of `CodeAuditor.audit_code` (src/auditor/__init__.py).
The outbound OpenAI call is the one effect that can raise; it is passed in as
an `Except` value (`.ok` = the reply text, `.error` = the exception message).
Everything after it is a total function of the reply. -/
def auditCodeBody (code : String) (platform : Option String) (language : String)
    (llm : Except String String) : Except String AuditResult := do
  let platform_patterns :=
    match platform with
    | some p => if p.isEmpty then [] else get_patterns p
    | none => []
  let _prompt := create_audit_prompt code platform_patterns language
  let analysis ← llm
  pure (parse_analysis analysis code)

/-- `CodeAuditor.audit_code`: the try-block body with the
`except Exception` handler that recovers with `_fallback_analysis`. -/
def audit_code (code : String) (platform : Option String) (language : String)
    (llm : Except String String) : AuditResult :=
  match auditCodeBody code platform language llm with
  | .ok r => r
  | .error e => fallback_analysis code e

/-!  ## src/auditor/analyzer.py — the structured-reply CodeAuditor

`_analyze_with_ai` always returns a dict (it catches every exception and JSON
failure itself); the dict's fields used downstream are modelled as the
structure `AnalysisData`.  A key absent from the real dict behaves under
`analysis.get(key, default)` exactly like a field holding that default value,
so quantifying over the structure covers every reachable dict. -/

/-- The structured analysis dict returned by `_analyze_with_ai`. -/
structure AnalysisData where
  summary : String
  efficiency_issues : List String
  bugs : List String
  optimizations : List String
  overengineered : Bool
  matches_prompt : Bool
deriving Repr

/-- `CodeAuditor._calculate_efficiency_score` (src/auditor/analyzer.py): the
sequence of deductions from 100, then `max(1, min(100, score))`. -/
def calculate_efficiency_score (prompt code : String) (analysis : AnalysisData) : Int :=
  let score : Int := 100
  let score := if analysis.overengineered then score - 30 else score
  let score := score - (analysis.efficiency_issues.length : Int) * 10
  let score := score - (analysis.bugs.length : Int) * 15
  let score := if analysis.matches_prompt then score else score - 40
  let lines_of_code := (pySplitNl code).length
  let prompt_words := (pySplitWs prompt).length
  let score := if lines_of_code > prompt_words * 3 then score - 20 else score
  max 1 (min 100 score)

/-- The block-opening keyword test of `_calculate_complexity` (case-sensitive
substring test on the stripped line). -/
def nestKeywordHit (stripped : List Char) : Bool :=
  ["if ", "for ", "while ", "def ", "class "].any fun kw => containsSub kw.data stripped

/-- The for-loop of `_calculate_complexity`: track the nesting level and its
maximum; a blank line or a line not starting with `4 * nesting` spaces closes a
block (`max(0, nesting - 1)` is truncated subtraction on `Nat`). -/
def nestLoop : List (List Char) → Nat → Nat → Nat
  | [], _, max_nesting => max_nesting
  | l :: ls, nesting, max_nesting =>
    let stripped := stripL l
    let nesting1 := if nestKeywordHit stripped then nesting + 1 else nesting
    let max1 := if nestKeywordHit stripped then max max_nesting nesting1 else max_nesting
    let nesting2 :=
      if stripped.isEmpty ∨ ¬ lpre (List.replicate (nesting1 * 4) ' ') l then nesting1 - 1
      else nesting1
    nestLoop ls nesting2 max1

/-- `CodeAuditor._calculate_complexity`: `min(10, 1 + max_nesting + len(lines) // 50)`. -/
def calculate_complexity (code : String) : Nat :=
  let lines := pySplitNl code
  min 10 (1 + nestLoop lines 0 0 + lines.length / 50)

/-- `CodeAuditor._count_potential_bugs`: `len(analysis.get('bugs', []))`. -/
def count_potential_bugs (analysis : AnalysisData) : Nat := analysis.bugs.length

/-- `CodeAuditor._extract_optimizations`: optimizations plus `"Fix: "`-prefixed
efficiency issues, first five. -/
def extract_optimizations (analysis : AnalysisData) : List String :=
  (analysis.optimizations ++ analysis.efficiency_issues.map (fun issue => "Fix: " ++ issue)).take 5

/-- `CodeAuditor._detect_red_flags`: the five conditional flags, in program
order.  The four leading characters of each flag are the literal (mojibake)
characters present in the source file. -/
def detect_red_flags (prompt code : String) (analysis : AnalysisData) : List String :=
  let prompt_words := (pySplitWs prompt).length
  let code_lines := ((pySplitNl code).filter (fun l => ¬ (stripL l).isEmpty)).length
  (if analysis.overengineered then
    ["ðŸš© Solution appears over-engineered for the given prompt"] else []) ++
  (if code_lines > prompt_words * 2 then
    ["ðŸš© Code is unusually long (" ++ toString code_lines ++
     " lines for " ++ toString prompt_words ++ " word prompt)"] else []) ++
  (if containsSub "import".data code.data ∧ pyCount "import".data code.data > 5 then
    ["ðŸš© Excessive imports may indicate unnecessary complexity"] else []) ++
  (if ¬ analysis.matches_prompt then
    ["ðŸš© Generated code doesn\x27t appear to solve the original request"] else []) ++
  (if analysis.bugs.length > 3 then
    ["ðŸš© High number of potential bugs (" ++ toString analysis.bugs.length ++
     ") - may require multiple fix iterations"] else [])

/-- `round(x, 4)` modelled on rationals. -/
def pyRound4 (q : Rat) : Rat := (round (q * 10000) : Rat) / 10000

/-- `round(x, 2)` modelled on rationals. -/
def pyRound2 (q : Rat) : Rat := (round (q * 100) : Rat) / 100

/-- The cost dict built by `_analyze_costs`. -/
structure CostAnalysis where
  estimated_tokens : Nat
  estimated_cost : Rat
  efficiency_ratio : Rat
  cost_per_line : Rat
deriving Repr

/-- `CodeAuditor._analyze_costs`: token and cost estimates; the efficiency
ratio divides by the code line count when it is positive and is 0 otherwise. -/
def analyze_costs (prompt code : String) : CostAnalysis :=
  let prompt_complexity := (pySplitWs prompt).length
  let code_complexity := (pySplitNl code).length
  let estimated_tokens_used := prompt_complexity + code_complexity * 2
  let estimated_cost : Rat := (estimated_tokens_used : Rat) * (2 / 1000)
  let efficiency_ratio : Rat :=
    if code_complexity > 0 then (prompt_complexity : Rat) / (code_complexity : Rat) else 0
  { estimated_tokens := estimated_tokens_used
    estimated_cost := pyRound4 estimated_cost
    efficiency_ratio := pyRound2 efficiency_ratio
    cost_per_line := pyRound4 (estimated_cost / (max 1 code_complexity : Nat)) }

/-- The cost dict as a `PyDict`, in the key order of the source. -/
def costDict (c : CostAnalysis) : PyDict :=
  [("estimated_tokens", .pInt c.estimated_tokens),
   ("estimated_cost", .pRat c.estimated_cost),
   ("efficiency_ratio", .pRat c.efficiency_ratio),
   ("cost_per_line", .pRat c.cost_per_line)]

/-- `CodeAuditor.audit_code` (src/auditor/analyzer.py): returns a plain Python
dict (not an `AuditResult`), with the extra `platform` key. -/
def audit_code_dict (an : AnalysisData) (prompt code platform : String) : PyDict :=
  [("efficiency_score", .pInt (calculate_efficiency_score prompt code an)),
   ("complexity_score", .pInt (calculate_complexity code)),
   ("bug_count", .pInt (count_potential_bugs an)),
   ("optimization_suggestions", .pStrList (extract_optimizations an)),
   ("cost_analysis", .pDict (costDict (analyze_costs prompt code))),
   ("red_flags", .pStrList (detect_red_flags prompt code an)),
   ("summary", .pStr an.summary),
   ("platform", .pStr platform)]

/-!  ## src/app.py — the Flask façade

`app.py` imports `CodeAuditor` from `auditor.analyzer`, whose `audit_code`
returns a plain dict; the handler then reads `result.efficiency_score` etc. as
attributes. -/

/-- The JSON body of a POST to `/analyze`, after `data.get('code', '')` and
`data.get('platform', 'unknown')` handling of absent keys. -/
structure ReqJson where
  code : Option String
  platform : Option String
deriving Repr

/-- An HTTP response: status code and JSON body. -/
inductive HttpResp where
  | resp (status : Nat) (body : PyDict)
deriving Repr

/-- Attribute access on a plain Python dict: it raises `AttributeError`
whatever the dict's keys are (dict items are subscripted, not attributes).
The exception text is modelled without Python's quote characters. -/
def dictAttr (_d : PyDict) (name : String) : Except String PyVal :=
  .error ("dict object has no attribute " ++ name)

/-- The try-block body of the `/analyze` handler in `src/app.py`.  The
`auditorOk` flag is whether the module-level `auditor` was initialized; `body`
is `request.json`; `an` is the structured analysis the LLM call inside
`audit_code` would produce.  Note the handler passes `(code, platform)` to
`audit_code(self, prompt, code, platform='unknown')`, so `code` arrives as the
prompt and `platform` as the code. -/
def analyzeTry (auditorOk : Bool) (body : Option ReqJson) (an : AnalysisData) :
    Except String HttpResp := do
  if ¬ auditorOk then
    return HttpResp.resp 500
      [("error", .pStr "Code auditor is not available. Check server logs for details.")]
  else
    match body with
    | none => return HttpResp.resp 400 [("error", .pStr "No JSON data provided")]
    | some data =>
      let code := data.code.getD ""
      let platform := data.platform.getD "unknown"
      if code = "" then
        return HttpResp.resp 400 [("error", .pStr "Code is required")]
      else do
        let result := audit_code_dict an code platform "unknown"
        let efficiency_score ← dictAttr result "efficiency_score"
        let complexity_score ← dictAttr result "complexity_score"
        let bug_count ← dictAttr result "bug_count"
        let optimization_suggestions ← dictAttr result "optimization_suggestions"
        let cost_analysis ← dictAttr result "cost_analysis"
        let red_flags ← dictAttr result "red_flags"
        let summary ← dictAttr result "summary"
        return HttpResp.resp 200
          [("efficiency_score", efficiency_score),
           ("complexity_score", complexity_score),
           ("bug_count", bug_count),
           ("optimization_suggestions", optimization_suggestions),
           ("cost_analysis", cost_analysis),
           ("red_flags", red_flags),
           ("summary", summary)]

/-- The `/analyze` handler: the try block with its
`except Exception as e: return 500` recovery. -/
def analyze (auditorOk : Bool) (body : Option ReqJson) (an : AnalysisData) : HttpResp :=
  match analyzeTry auditorOk body an with
  | .ok r => r
  | .error e => HttpResp.resp 500 [("error", .pStr ("Analysis failed: " ++ e))]

/-!  ## Spec-side definitions used to state the claims  -/

/-- Modelled from the spec: the efficiency-score formula stated as one additive
expression — start at 100; subtract 30 if overengineered; 10 per efficiency
issue; 15 per bug; 40 if the code does not match the prompt; 20 if the code
line count exceeds three times the prompt word count; clamp to [1, 100]. -/
def efficiencyScoreSpec (prompt code : String) (an : AnalysisData) : Int :=
  max 1 (min 100 (100 - (if an.overengineered then 30 else 0)
    - 10 * (an.efficiency_issues.length : Int)
    - 15 * (an.bugs.length : Int)
    - (if an.matches_prompt then 0 else 40)
    - (if (pySplitNl code).length > 3 * (pySplitWs prompt).length then 20 else 0)))

/-- Whether one line qualifies as a suggestion: stripped, containing a
suggestion keyword case-insensitively, and of stripped length over 10. -/
def suggFilter (l : List Char) : Option String :=
  if (suggestion_keywords.any fun w => containsSub w.data (lowerL (stripL l))) ∧
      (stripL l).length > 10 then
    some (String.mk (stripL l))
  else none

/-- Whether one line qualifies as a red flag: containing a flag keyword
case-insensitively (tested on the raw line) and of stripped length over 10;
the stripped line is kept. -/
def flagFilter (l : List Char) : Option String :=
  if (flag_keywords.any fun w => containsSub w.data (lowerL l)) ∧ (stripL l).length > 10 then
    some (String.mk (stripL l))
  else none

/-- The lines of `text` that qualify as suggestions, as one filter over the
split lines, in original order. -/
def suggestionLines (text : String) : List String :=
  (pySplitNl text).filterMap suggFilter

/-- The lines of `text` that qualify as red flags, as one filter over the split
lines, in original order. -/
def redFlagLines (text : String) : List String :=
  (pySplitNl text).filterMap flagFilter

/-!  ## Helper lemmas  -/

/-- A list is a prefix of itself followed by anything. -/
theorem lpre_self_append (l r : List Char) : lpre l (l ++ r) = true := by
  induction l with
  | nil => rfl
  | cons a as ih => simp [lpre, ih]

/-- The substring test succeeds on any string that contains the needle. -/
theorem containsSub_middle (m pre post : List Char) :
    containsSub m (pre ++ m ++ post) = true := by
  induction pre with
  | nil =>
    cases m with
    | nil =>
      cases post with
      | nil => rfl
      | cons c cs => simp [containsSub, lpre]
    | cons c cs =>
      have h1 : lpre (c :: cs) ((c :: cs) ++ post) = true := lpre_self_append _ _
      simp only [List.cons_append] at h1
      simp [containsSub, h1]
  | cons p ps ih =>
    simp only [List.append_assoc] at ih ⊢
    simp [containsSub, ih]

/-- `split('\n')` never returns an empty list. -/
theorem splitNl_ne_nil (l : List Char) : splitNl l ≠ [] := by
  induction l with
  | nil => simp [splitNl]
  | cons c cs ih =>
    simp only [splitNl]
    cases h : splitNl cs with
    | nil => simp
    | cons r rs => by_cases hc : c = '\n' <;> simp [hc]

/-- The suggestion-collecting loop agrees with the one-pass filter. -/
theorem collectSuggestions_eq (ls : List (List Char)) :
    collectSuggestions ls = ls.filterMap suggFilter := by
  induction ls with
  | nil => rfl
  | cons l ls ih =>
    simp only [collectSuggestions, List.filterMap_cons, suggFilter]
    split_ifs with h
    · simp [ih]
    · simp [ih]

/-- The red-flag-collecting loop agrees with the one-pass filter. -/
theorem collectRedFlags_eq (ls : List (List Char)) :
    collectRedFlags ls = ls.filterMap flagFilter := by
  induction ls with
  | nil => rfl
  | cons l ls ih =>
    simp only [collectRedFlags, List.filterMap_cons, flagFilter]
    split_ifs with h
    · simp [ih]
    · simp [ih]

/-!  ## Claim theorems  -/

/-- C9: `get_patterns` is case-insensitive — `get_patterns("CURSOR")` equals
`get_patterns("cursor")`, and any two identifiers agreeing up to case agree —
and every unrecognized or empty identifier yields the empty sequence rather
than an error. -/
theorem get_patterns_case_insensitive_and_total :
    get_patterns "CURSOR" = get_patterns "cursor"
    ∧ (∀ p q : String, pyLower p = pyLower q → get_patterns p = get_patterns q)
    ∧ (∀ p : String, pyLower p ≠ "replit" → pyLower p ≠ "lovable" → pyLower p ≠ "cursor" →
        get_patterns p = [])
    ∧ get_patterns "" = []
    ∧ get_patterns "unknown-platform" = [] := by
  refine ⟨by decide, ?_, ?_, by decide, by decide⟩
  · intro p q h
    simp only [get_patterns, h]
  · intro p h1 h2 h3
    simp only [get_patterns, h1, h2, h3, if_false]

/-- Witness for C9: the theorem applied at the concrete identifiers
`"unknown-platform"` and `"Replit"`. -/
theorem get_patterns_case_insensitive_and_total_witness :
    get_patterns "unknown-platform" = [] ∧ get_patterns "Replit" = get_patterns "replit" :=
  ⟨get_patterns_case_insensitive_and_total.2.2.1 "unknown-platform"
      (by decide) (by decide) (by decide),
   get_patterns_case_insensitive_and_total.2.1 "Replit" "replit" (by decide)⟩

/-- C5: the fallback result has the fixed scores, suggestions and red flag, a
cost dict holding the non-blank line count and the literal error reason, and a
summary stating that count; on `"line1\nline2\n\n"` with reason `"timeout"` it
reports 2 lines and a summary mentioning `"2"`. -/
theorem fallback_analysis_shape :
    (∀ code err : String,
      (fallback_analysis code err).efficiency_score = 70
      ∧ (fallback_analysis code err).complexity_score = 5
      ∧ (fallback_analysis code err).bug_count = 0
      ∧ (fallback_analysis code err).optimization_suggestions =
          ["API analysis unavailable - manual review recommended",
           "Consider code formatting and structure improvements"]
      ∧ (fallback_analysis code err).red_flags = ["API analysis unavailable"]
      ∧ containsSubS "analysis unavailable" "API analysis unavailable" = true
      ∧ (fallback_analysis code err).cost_analysis =
          [("lines_of_code", .pInt (nonBlankLineCount code)),
           ("estimated_runtime", .pStr "unknown"),
           ("maintainability", .pStr "requires_analysis"),
           ("api_error", .pStr err)]
      ∧ containsSubS (toString (nonBlankLineCount code))
          (fallback_analysis code err).summary = true)
    ∧ nonBlankLineCount "line1\nline2\n\n" = 2
    ∧ containsSubS "2" (fallback_analysis "line1\nline2\n\n" "timeout").summary = true := by
  refine ⟨?_, by decide, by decide⟩
  intro code err
  refine ⟨rfl, rfl, rfl, rfl, rfl, by decide, rfl, ?_⟩
  show containsSub (toString (nonBlankLineCount code)).data
    ("Basic analysis: " ++ toString (nonBlankLineCount code) ++
      " lines of code. Full analysis unavailable due to API issues.").data = true
  rw [String.data_append, String.data_append]
  exact containsSub_middle _ _ _

/-- C2 (against the claim): the parse step clamps the complexity metric with
`min(100, max(1, n))`, so on the analysis text `"complexity: 50"` the returned
`complexity_score` is 50, outside the documented range [1, 10]. -/
theorem parse_analysis_complexity_exceeds_10 :
    (parse_analysis "complexity: 50" "x").complexity_score = 50
    ∧ ¬ (parse_analysis "complexity: 50" "x").complexity_score ≤ 10 := by
  refine ⟨by decide, by decide⟩

/-- C7: `bug_count` is the sum over the five keywords of the case-insensitive
non-overlapping occurrence counts, capped at 10, hence never above 10. -/
theorem count_bugs_capped :
    ∀ text : String,
      count_bugs text =
        min ((bug_keywords.map fun kw => pyCount kw.data (lowerL text.data)).sum) 10
      ∧ count_bugs text ≤ 10 := by
  intro text
  constructor
  · simp only [count_bugs, bug_keywords, List.foldl_cons, List.foldl_nil,
      List.map_cons, List.map_nil, List.sum_cons, List.sum_nil]
    omega
  · exact Nat.min_le_right _ 10

/-- C3: `audit_code` is total — modelling the one fallible step (the outbound
LLM call) as an `Except` value, a successful call is parsed by the total
`parse_analysis` and any exception is recovered locally by
`fallback_analysis`, so no exception reaches the caller. -/
theorem audit_code_never_raises :
    ∀ (code : String) (platform : Option String) (language : String),
      (∀ analysis : String,
        audit_code code platform language (.ok analysis) = parse_analysis analysis code)
      ∧ (∀ e : String,
        audit_code code platform language (.error e) = fallback_analysis code e) := by
  intro code platform language
  exact ⟨fun analysis => rfl, fun e => rfl⟩

/-- C4: the sequenced deductions of `_calculate_efficiency_score` equal the
spec's additive formula — 100, minus 30 if overengineered, minus 10 per
efficiency issue, minus 15 per bug, minus 40 if the prompt is not matched,
minus 20 if the code line count exceeds three times the prompt word count —
clamped to [1, 100]. -/
theorem calculate_efficiency_score_matches_spec :
    ∀ (prompt code : String) (an : AnalysisData),
      calculate_efficiency_score prompt code an = efficiencyScoreSpec prompt code an
      ∧ 1 ≤ calculate_efficiency_score prompt code an
      ∧ calculate_efficiency_score prompt code an ≤ 100 := by
  intro prompt code an
  simp only [calculate_efficiency_score, efficiencyScoreSpec]
  split_ifs <;> refine ⟨by omega, by omega, by omega⟩

/-- C6: score extraction returns the first matched integer clamped — 42 from
`"efficiency: 42"`, 100 from `"efficiency: 150"` — and the call-site default
(75 for efficiency, 5 for complexity) whenever the search finds no match. -/
theorem extract_score_first_match_or_default :
    extract_score "efficiency: 42" "efficiency" 75 = 42
    ∧ extract_score "efficiency: 150" "efficiency" 75 = 100
    ∧ extract_score "nothing relevant" "efficiency" 75 = 75
    ∧ extract_score "nothing relevant" "complexity" 5 = 5
    ∧ (∀ (text metric : String) (d : Nat),
        reSearchNum metric.data (lowerL text.data) = none → extract_score text metric d = d)
    ∧ (∀ (text metric : String) (d n : Nat),
        reSearchNum metric.data (lowerL text.data) = some n →
          extract_score text metric d = min 100 (max 1 n)) := by
  refine ⟨by decide, by decide, by decide, by decide, ?_, ?_⟩
  · intro text metric d h
    simp [extract_score, h]
  · intro text metric d n h
    simp [extract_score, h]

/-- Witness for C6: the theorem applied at the concrete texts `"no score"`
(no match, default 75) and `"complexity level 7"` (match 7). -/
theorem extract_score_first_match_or_default_witness :
    extract_score "no score" "efficiency" 75 = 75
    ∧ extract_score "complexity level 7" "complexity" 5 = min 100 (max 1 7) :=
  ⟨extract_score_first_match_or_default.2.2.2.2.1 "no score" "efficiency" 75 (by decide),
   extract_score_first_match_or_default.2.2.2.2.2 "complexity level 7" "complexity" 5 7
     (by decide)⟩

/-- C8: suggestion extraction returns at most the first five qualifying lines
in original order and exactly the three fixed defaults when no line qualifies;
red-flag extraction returns at most the first three qualifying lines in
original order. -/
theorem extraction_bounds_and_defaults :
    ∀ text : String,
      (extract_suggestions text).length ≤ 5
      ∧ (extract_red_flags text).length ≤ 3
      ∧ (suggestionLines text = [] → extract_suggestions text = default_suggestions)
      ∧ (suggestionLines text ≠ [] →
          extract_suggestions text = (suggestionLines text).take 5)
      ∧ extract_red_flags text = (redFlagLines text).take 3
      ∧ default_suggestions.length = 3 := by
  intro text
  have hs : extract_suggestions text =
      (if (suggestionLines text).isEmpty then default_suggestions
       else suggestionLines text).take 5 := by
    simp only [extract_suggestions, suggestionLines, collectSuggestions_eq]
  have hr : extract_red_flags text = (redFlagLines text).take 3 := by
    simp only [extract_red_flags, redFlagLines, collectRedFlags_eq]
  refine ⟨?_, ?_, ?_, ?_, hr, rfl⟩
  · rw [hs]
    simp only [List.length_take]
    omega
  · rw [hr]
    simp only [List.length_take]
    omega
  · intro h
    rw [hs, h]
    rfl
  · intro h
    rw [hs, if_neg (by simpa [List.isEmpty_iff] using h)]

/-- Witness for C8: the theorem applied at a text with no qualifying line
(defaults substituted) and at a text with one qualifying line. -/
theorem extraction_bounds_and_defaults_witness :
    extract_suggestions "abc" = default_suggestions
    ∧ extract_suggestions "I suggest you refactor this" =
        (suggestionLines "I suggest you refactor this").take 5 :=
  ⟨(extraction_bounds_and_defaults "abc").2.2.1 (by decide),
   (extraction_bounds_and_defaults "I suggest you refactor this").2.2.2.1 (by decide)⟩

/-- C10: `split('\n')` yields at least one segment even for the empty string,
so the code line count in `_analyze_costs` is always positive, the guarded
zero-lines branch never fires (the efficiency ratio is always the quotient),
and the `cost_per_line` divisor `max(1, code_complexity)` equals the count
itself. -/
theorem analyze_costs_divisor_positive :
    ∀ (prompt code : String),
      1 ≤ (pySplitNl code).length
      ∧ (analyze_costs prompt code).efficiency_ratio =
          pyRound2 (((pySplitWs prompt).length : Rat) / ((pySplitNl code).length : Rat))
      ∧ max 1 (pySplitNl code).length = (pySplitNl code).length := by
  intro prompt code
  have hpos : 0 < (pySplitNl code).length :=
    List.length_pos.mpr (splitNl_ne_nil code.data)
  refine ⟨hpos, ?_, Nat.max_eq_right hpos⟩
  simp only [analyze_costs, if_pos hpos]

/-- C1 (against the claim): with the auditor configured and any request whose
code field is non-empty, the `/analyze` handler always answers HTTP 500 — the
analyzer variant of `audit_code` returns a plain dict, the handler reads
`result.efficiency_score` as an attribute, the attribute access raises, and
the catch-all except turns it into the error response — never the seven-field
JSON document. -/
theorem analyze_route_always_500 :
    ∀ (an : AnalysisData) (code platform : String), code ≠ "" →
      analyze true (some ⟨some code, some platform⟩) an =
        HttpResp.resp 500
          [("error", .pStr "Analysis failed: dict object has no attribute efficiency_score")] := by
  intro an code platform h
  simp [analyze, analyzeTry, dictAttr, h, bind, Except.bind]

/-- Witness for C1: the theorem applied at the concrete request
`{"code": "print(1)", "platform": "cursor"}`. -/
theorem analyze_route_always_500_witness :
    analyze true (some ⟨some "print(1)", some "cursor"⟩) ⟨"ok", [], [], [], false, true⟩ =
      HttpResp.resp 500
        [("error", .pStr "Analysis failed: dict object has no attribute efficiency_score")] :=
  analyze_route_always_500 ⟨"ok", [], [], [], false, true⟩ "print(1)" "cursor" (by decide)
